import Mathlib

/-!
Verification of the reentrant database-session scope of `core/db/session.py`
(class `SessionManager`).

The Python class is embedded as a pure state machine.  A `Session` object is
represented by a numeric identity (so "reference equality" is identity of the
number); the state carries ghost instrumentation counting observable events:
sessions created by the factory (`AsyncSessionClass()` calls), underlying
`Session.close()` events, `async_close` invocations and warnings logged.
-/

namespace HarmonyPilot

/-- Configuration consumed by the manager: connection `url` and the
`debug_sql` flag (mirrors `DBConfig` as used by `SessionManager.__init__`). -/
structure DBConfig where
  url : String
  debug_sql : Bool
  deriving Repr, DecidableEq

/-- State of one `SessionManager` instance.  `async_session` holds the
identity of the live session (`none` when closed); `recursion_depth` is the
reentrancy counter.  The remaining fields are ghost observation counters:
`sessions_created` counts factory invocations (and doubles as the identity
given to the next created session), `sessions_closed` counts
`Session.close()` events on the underlying session, `close_calls` counts
invocations of `async_close`, `warning_count` counts `logger.warning` calls. -/
structure SessionManager where
  config : DBConfig
  async_session : Option Nat
  recursion_depth : Nat
  sessions_created : Nat
  sessions_closed : Nat
  close_calls : Nat
  warning_count : Nat
  deriving Repr, DecidableEq

/-- Construction (`SessionManager.__init__`): stores the config, no session
yet, recursion depth zero. -/
def SessionManager.init (config : DBConfig) : SessionManager :=
  { config := config
    async_session := none
    recursion_depth := 0
    sessions_created := 0
    sessions_closed := 0
    close_calls := 0
    warning_count := 0 }

/-- Embedding of `SessionManager.async_start`: if a session is active,
increment `recursion_depth`, log a warning and return the existing session;
otherwise call the factory once, store the fresh session and return it. -/
def SessionManager.async_start (s : SessionManager) : Nat × SessionManager :=
  match s.async_session with
  | some sess =>
      (sess,
       { s with
          recursion_depth := s.recursion_depth + 1
          warning_count := s.warning_count + 1 })
  | none =>
      (s.sessions_created,
       { s with
          async_session := some s.sessions_created
          sessions_created := s.sessions_created + 1 })

/-- Embedding of `SessionManager.async_close`: warn and return if no session
is active; if `recursion_depth > 0` just decrement it; otherwise close the
underlying session and clear `async_session`.  Every invocation bumps the
ghost `close_calls` counter. -/
def SessionManager.async_close (s : SessionManager) : SessionManager :=
  let s0 := { s with close_calls := s.close_calls + 1 }
  match s.async_session with
  | none => { s0 with warning_count := s0.warning_count + 1 }
  | some _ =>
      if s.recursion_depth > 0 then
        { s0 with recursion_depth := s.recursion_depth - 1 }
      else
        { s0 with
            async_session := none
            sessions_closed := s.sessions_closed + 1 }

/-- State effect of `async_start`, discarding the returned session. -/
def doAcquire (s : SessionManager) : SessionManager := s.async_start.2

/-- State effect of `async_close`. -/
def doRelease (s : SessionManager) : SessionManager := s.async_close

/-- The two operations a caller may perform on one scope. -/
inductive Op where
  | acquire
  | release
  deriving Repr, DecidableEq

/-- One step of the scope state machine. -/
def step (s : SessionManager) : Op → SessionManager
  | Op.acquire => doAcquire s
  | Op.release => doRelease s

/-- Run a sequence of operations from a freshly constructed manager. -/
def run (cfg : DBConfig) (ops : List Op) : SessionManager :=
  ops.foldl step (SessionManager.init cfg)

/-- A manager state decorated with the number of `acquire` and `release`
calls performed since the scope last was in the `CLOSED` state.  Whenever a
step leaves the scope closed the two counters restart from zero. -/
structure Counted where
  st : SessionManager
  acquires : Nat
  releases : Nat
  deriving Repr, DecidableEq

/-- Step of the counted state machine: perform the operation, then either
reset both counters (if the resulting scope is closed) or charge the
operation to its counter. -/
def countedStep (c : Counted) (op : Op) : Counted :=
  let s2 := step c.st op
  if s2.async_session.isNone then
    { st := s2, acquires := 0, releases := 0 }
  else
    match op with
    | Op.acquire => { st := s2, acquires := c.acquires + 1, releases := c.releases }
    | Op.release => { st := s2, acquires := c.acquires, releases := c.releases + 1 }

/-- Run the counted machine from a freshly constructed manager. -/
def runCounted (cfg : DBConfig) (ops : List Op) : Counted :=
  ops.foldl countedStep { st := SessionManager.init cfg, acquires := 0, releases := 0 }

/-- Invariant tying the state of the scope to the call counters since the
last `CLOSED` state. -/
def CountInv (c : Counted) : Prop :=
  (c.st.async_session = none →
      c.acquires = 0 ∧ c.releases = 0 ∧ c.st.recursion_depth = 0) ∧
  (∀ v, c.st.async_session = some v →
      c.acquires = c.releases + c.st.recursion_depth + 1)

/-- Embedding of `SessionManager._on_connect`, the hook fired on each new
physical connection.  The dbapi connection is modelled by the list of
statements executed on it so far; the hook appends the foreign-key pragma
exactly when the configured URL starts with `sqlite` (Python
`self.config.url.startswith("sqlite")`, modelled on the character list). -/
def on_connect (cfg : DBConfig) (executed : List String) : List String :=
  if "sqlite".toList.isPrefixOf cfg.url.toList then
    executed ++ ["pragma foreign_keys=on"]
  else
    executed

/-- Error taxonomy of the spec for configuration failures. -/
inductive ConfigurationError where
  | malformedUrl
  | unsupportedBackend
  deriving Repr, DecidableEq

/-- Split a character list at the first occurrence of the separator `://`,
returning the scheme part and the rest, or `none` when no separator occurs. -/
def breakScheme : List Char → Option (List Char × List Char)
  | [] => none
  | c :: rest =>
      match c, rest with
      | ':', '/' :: '/' :: tail => some ([], tail)
      | _, _ =>
          match breakScheme rest with
          | none => none
          | some (pre, post) => some (c :: pre, post)

/-- Dialect part of a scheme: the characters before the first `+`
(`sqlite+aiosqlite` has dialect `sqlite`). -/
def dialectOf (scheme : List Char) : List Char :=
  scheme.takeWhile (fun c => c ≠ '+')

/-- Backends the driver layer supports. -/
def supported_backends : List (List Char) :=
  ["sqlite".toList, "postgresql".toList, "mysql".toList, "mariadb".toList,
   "oracle".toList, "mssql".toList]

/-- Modelled from the spec: the URL validation performed at construction time
by the backend driver (`create_async_engine`, called eagerly from
`SessionManager.__init__`), whose code is not part of this repository.  Per
the spec, configuration "fails with `ConfigurationError` if the URL is
malformed or the backend is unsupported". -/
def validate_url (url : String) : Except ConfigurationError Unit :=
  match breakScheme url.toList with
  | none => Except.error ConfigurationError.malformedUrl
  | some (scheme, _) =>
      if supported_backends.contains (dialectOf scheme) then
        Except.ok ()
      else
        Except.error ConfigurationError.unsupportedBackend

/-- Construction with eager URL validation: the manager state is only built
when the URL validates, mirroring that `__init__` configures the engine
before any session can exist. -/
def SessionManager.initE (cfg : DBConfig) : Except ConfigurationError SessionManager :=
  match validate_url cfg.url with
  | Except.error e => Except.error e
  | Except.ok _ => Except.ok (SessionManager.init cfg)

/-- Variant of `async_start` whose factory call may fail: `factoryError`
is the error the factory raises, if any.  In the Python source the
assignment `self.async_session = self.AsyncSessionClass()` only happens
after the factory call returns, so on failure the raised error propagates
unchanged and the state is untouched. -/
def SessionManager.async_start_f (factoryError : Option String) (s : SessionManager) :
    Except String Nat × SessionManager :=
  match s.async_session with
  | some sess =>
      (Except.ok sess,
       { s with
          recursion_depth := s.recursion_depth + 1
          warning_count := s.warning_count + 1 })
  | none =>
      match factoryError with
      | some e => (Except.error e, s)
      | none =>
          (Except.ok s.sessions_created,
           { s with
              async_session := some s.sessions_created
              sessions_created := s.sessions_created + 1 })

/-- Embedding of `__aenter__`: delegates to `async_start`. -/
def SessionManager.aenter (s : SessionManager) : Nat × SessionManager :=
  s.async_start

/-- Embedding of `__aexit__`: delegates to `async_close` whatever the
exception information is. -/
def SessionManager.aexit (s : SessionManager) : SessionManager :=
  s.async_close

/-- Semantics of `async with manager as session: body`: enter the scope,
run the body (which may finish normally or raise, and may itself transform
the state), then exit the scope on either path. -/
def withScope {α : Type} (body : Nat → SessionManager → Except String α × SessionManager)
    (s : SessionManager) : Except String α × SessionManager :=
  let (sess, s1) := s.aenter
  let (r, s2) := body sess s1
  (r, s2.aexit)

/-- Fixed example configuration used by witnesses. -/
def cfg0 : DBConfig := { url := "sqlite+aiosqlite:///test.db", debug_sql := false }

end HarmonyPilot

namespace HarmonyPilot

theorem async_start_open (s : SessionManager) (v : Nat) (h : s.async_session = some v) :
    s.async_start =
      (v, { s with
              recursion_depth := s.recursion_depth + 1
              warning_count := s.warning_count + 1 }) := by
  simp [SessionManager.async_start, h]

theorem async_start_closed (s : SessionManager) (h : s.async_session = none) :
    s.async_start =
      (s.sessions_created,
       { s with
          async_session := some s.sessions_created
          sessions_created := s.sessions_created + 1 }) := by
  simp [SessionManager.async_start, h]

theorem async_close_closed (s : SessionManager) (h : s.async_session = none) :
    s.async_close =
      { s with
          close_calls := s.close_calls + 1
          warning_count := s.warning_count + 1 } := by
  simp [SessionManager.async_close, h]

theorem async_close_open_pos (s : SessionManager) (v : Nat)
    (h : s.async_session = some v) (hd : 0 < s.recursion_depth) :
    s.async_close =
      { s with
          close_calls := s.close_calls + 1
          recursion_depth := s.recursion_depth - 1 } := by
  simp [SessionManager.async_close, h, hd]

theorem async_close_open_zero (s : SessionManager) (v : Nat)
    (h : s.async_session = some v) (hd : s.recursion_depth = 0) :
    s.async_close =
      { s with
          close_calls := s.close_calls + 1
          async_session := none
          sessions_closed := s.sessions_closed + 1 } := by
  simp [SessionManager.async_close, h, hd]

end HarmonyPilot

namespace HarmonyPilot

theorem countedStep_st (c : Counted) (op : Op) : (countedStep c op).st = step c.st op := by
  simp only [countedStep]
  split
  · rfl
  · cases op <;> rfl

theorem countedStep_inv (c : Counted) (op : Op) (hc : CountInv c) : CountInv (countedStep c op) := by
  obtain ⟨⟨cc, cas, crd, csc, cscl, ccc, cwc⟩, ca, cr⟩ := c
  obtain ⟨hclosed, hopen⟩ := hc
  cases op with
  | acquire =>
      cases cas with
      | none =>
          obtain ⟨ha, hr, hd⟩ := hclosed rfl
          simp_all [countedStep, step, doAcquire, SessionManager.async_start, CountInv]
      | some v =>
          have h := hopen v rfl
          simp_all [countedStep, step, doAcquire, SessionManager.async_start, CountInv]
          omega
  | release =>
      cases cas with
      | none =>
          obtain ⟨ha, hr, hd⟩ := hclosed rfl
          simp_all [countedStep, step, doRelease, SessionManager.async_close, CountInv]
      | some v =>
          have h := hopen v rfl
          cases crd with
          | zero =>
              simp_all [countedStep, step, doRelease, SessionManager.async_close, CountInv]
          | succ d =>
              simp_all [countedStep, step, doRelease, SessionManager.async_close, CountInv]
              omega

theorem foldl_countedStep_inv (ops : List Op) (c : Counted) (hc : CountInv c) :
    CountInv (ops.foldl countedStep c) := by
  induction ops generalizing c with
  | nil => exact hc
  | cons op rest ih => exact ih _ (countedStep_inv c op hc)

theorem runCounted_inv (cfg : DBConfig) (ops : List Op) : CountInv (runCounted cfg ops) := by
  refine foldl_countedStep_inv ops _ ⟨fun _ => ⟨rfl, rfl, rfl⟩, fun v hv => ?_⟩
  simp [SessionManager.init] at hv

theorem foldl_counted_st (ops : List Op) (c : Counted) :
    (ops.foldl countedStep c).st = ops.foldl step c.st := by
  induction ops generalizing c with
  | nil => rfl
  | cons op rest ih => rw [List.foldl_cons, List.foldl_cons, ih, countedStep_st]

theorem runCounted_st (cfg : DBConfig) (ops : List Op) :
    (runCounted cfg ops).st = run cfg ops :=
  foldl_counted_st ops _

/-- Claim C1: for every sequence of acquire/release calls executed
sequentially on one scope, the scope is OPEN (`async_session` non-null) if
and only if the number of acquire calls so far strictly exceeds the number
of release calls so far, both counted since the scope last was CLOSED. -/
theorem scope_open_iff_acquires_exceed_releases (cfg : DBConfig) (ops : List Op) :
    (runCounted cfg ops).st.async_session ≠ none ↔
      (runCounted cfg ops).releases < (runCounted cfg ops).acquires := by
  obtain ⟨hclosed, hopen⟩ := runCounted_inv cfg ops
  constructor
  · intro h
    cases hs : (runCounted cfg ops).st.async_session with
    | none => exact absurd hs h
    | some v => have := hopen v hs; omega
  · intro h hs
    obtain ⟨ha, hr, _⟩ := hclosed hs
    omega

/-- Claim C2: every reachable state of a scope (from construction, closed
under acquire and release) satisfies: the recursion depth is a non-negative
integer, positive depth implies an active session, and a null session
implies depth zero. -/
theorem reachable_state_invariant (cfg : DBConfig) (ops : List Op) :
    0 ≤ (run cfg ops).recursion_depth ∧
    ((run cfg ops).recursion_depth > 0 → (run cfg ops).async_session ≠ none) ∧
    ((run cfg ops).async_session = none → (run cfg ops).recursion_depth = 0) := by
  obtain ⟨hclosed, _⟩ := runCounted_inv cfg ops
  rw [runCounted_st] at hclosed
  refine ⟨Nat.zero_le _, ?_, fun h => (hclosed h).2.2⟩
  intro hd h
  have := (hclosed h).2.2
  omega

/-- Witness for C2 at a concrete trace. -/
theorem reachable_state_invariant_witness :
    (run cfg0 [Op.acquire, Op.release]).async_session = none →
      (run cfg0 [Op.acquire, Op.release]).recursion_depth = 0 :=
  (reachable_state_invariant cfg0 [Op.acquire, Op.release]).2.2

theorem doAcquire_open (s : SessionManager) (v : Nat) (h : s.async_session = some v) :
    doAcquire s =
      { s with
          recursion_depth := s.recursion_depth + 1
          warning_count := s.warning_count + 1 } := by
  simp [doAcquire, async_start_open s v h]

theorem doAcquire_iterate_open (k : Nat) (s : SessionManager) (v : Nat)
    (h : s.async_session = some v) :
    doAcquire^[k] s =
      { s with
          recursion_depth := s.recursion_depth + k
          warning_count := s.warning_count + k } := by
  induction k generalizing s with
  | zero => simp
  | succ k ih =>
      rw [Function.iterate_succ_apply, doAcquire_open s v h]
      rw [ih _ (by simp [h])]
      obtain ⟨cc, cas, crd, csc, cscl, ccc, cwc⟩ := s
      simp
      omega

theorem doAcquire_iterate_init (cfg : DBConfig) (n : Nat) :
    doAcquire^[n + 1] (SessionManager.init cfg) =
      { config := cfg, async_session := some 0, recursion_depth := n,
        sessions_created := 1, sessions_closed := 0, close_calls := 0,
        warning_count := n } := by
  rw [Function.iterate_succ_apply]
  have h1 : doAcquire (SessionManager.init cfg) =
      { config := cfg, async_session := some 0, recursion_depth := 0,
        sessions_created := 1, sessions_closed := 0, close_calls := 0,
        warning_count := 0 } := rfl
  rw [h1, doAcquire_iterate_open n _ 0 rfl]
  simp

theorem doRelease_open_pos (s : SessionManager) (v : Nat)
    (h : s.async_session = some v) (hd : 0 < s.recursion_depth) :
    doRelease s =
      { s with
          recursion_depth := s.recursion_depth - 1
          close_calls := s.close_calls + 1 } := by
  simp [doRelease, async_close_open_pos s v h hd]

theorem doRelease_iterate_open (k : Nat) (s : SessionManager) (v : Nat)
    (h : s.async_session = some v) (hk : k ≤ s.recursion_depth) :
    doRelease^[k] s =
      { s with
          recursion_depth := s.recursion_depth - k
          close_calls := s.close_calls + k } := by
  induction k generalizing s with
  | zero => simp
  | succ k ih =>
      rw [Function.iterate_succ_apply, doRelease_open_pos s v h (by omega)]
      rw [ih _ (by simp [h]) (by simp; omega)]
      obtain ⟨cc, cas, crd, csc, cscl, ccc, cwc⟩ := s
      simp
      omega

theorem doRelease_closed (s : SessionManager) (h : s.async_session = none) :
    doRelease s =
      { s with
          close_calls := s.close_calls + 1
          warning_count := s.warning_count + 1 } := by
  simp [doRelease, async_close_closed s h]

theorem doRelease_iterate_closed (n : Nat) (s : SessionManager) (h : s.async_session = none) :
    doRelease^[n] s =
      { s with
          close_calls := s.close_calls + n
          warning_count := s.warning_count + n } := by
  induction n generalizing s with
  | zero => simp
  | succ n ih =>
      rw [Function.iterate_succ_apply, doRelease_closed s h]
      rw [ih _ (by simp [h])]
      obtain ⟨cc, cas, crd, csc, cscl, ccc, cwc⟩ := s
      simp
      omega

/-- Claim C3: acquire on a CLOSED scope calls the session factory exactly
once, stores the new session as the active session without changing the
depth, and returns it; every subsequent acquire without an intervening
matching release increments the depth, creates no new session, and returns
the identical session. -/
theorem acquire_creates_once_then_reuses (s : SessionManager) (h : s.async_session = none) :
    s.async_start.2.sessions_created = s.sessions_created + 1 ∧
    s.async_start.2.async_session = some s.async_start.1 ∧
    s.async_start.2.recursion_depth = s.recursion_depth ∧
    ∀ k : Nat,
      (doAcquire^[k] s.async_start.2).async_start.1 = s.async_start.1 ∧
      (doAcquire^[k] s.async_start.2).async_start.2.sessions_created = s.sessions_created + 1 ∧
      (doAcquire^[k] s.async_start.2).async_start.2.recursion_depth = s.recursion_depth + k + 1 ∧
      (doAcquire^[k] s.async_start.2).async_start.2.async_session = some s.async_start.1 := by
  rw [async_start_closed s h]
  refine ⟨rfl, rfl, rfl, fun k => ?_⟩
  rw [doAcquire_iterate_open k _ s.sessions_created (by rfl)]
  rw [async_start_open _ s.sessions_created (by rfl)]
  refine ⟨rfl, rfl, by simp, rfl⟩

/-- Witness for C3 on a freshly constructed scope. -/
theorem acquire_creates_once_then_reuses_witness :
    (SessionManager.init cfg0).async_start.2.sessions_created = 1 ∧
    (doAcquire^[1] (SessionManager.init cfg0).async_start.2).async_start.1 =
      (SessionManager.init cfg0).async_start.1 :=
  ⟨(acquire_creates_once_then_reuses (SessionManager.init cfg0) rfl).1,
   ((acquire_creates_once_then_reuses (SessionManager.init cfg0) rfl).2.2.2 1).1⟩

theorem doRelease_open_zero (s : SessionManager) (v : Nat)
    (h : s.async_session = some v) (hd : s.recursion_depth = 0) :
    doRelease s =
      { s with
          close_calls := s.close_calls + 1
          async_session := none
          sessions_closed := s.sessions_closed + 1 } := by
  simp [doRelease, async_close_open_zero s v h hd]

/-- Claim C4: for every N at least 1, given N acquires on one scope followed
by N releases, each of the first N releases but the last only decrements the
depth and does not close the underlying session, and the Nth release closes
the session exactly once and clears the active session: the close happens on
the Nth release, never earlier, never later. -/
theorem nth_release_closes_exactly (cfg : DBConfig) (N : Nat) (h : 1 ≤ N) :
    (∀ k, k < N →
       (doRelease^[k] (doAcquire^[N] (SessionManager.init cfg))).async_session = some 0 ∧
       (doRelease^[k] (doAcquire^[N] (SessionManager.init cfg))).sessions_closed = 0 ∧
       (doRelease^[k] (doAcquire^[N] (SessionManager.init cfg))).recursion_depth = N - 1 - k) ∧
    (doRelease^[N] (doAcquire^[N] (SessionManager.init cfg))).async_session = none ∧
    (doRelease^[N] (doAcquire^[N] (SessionManager.init cfg))).sessions_closed = 1 := by
  obtain ⟨m, rfl⟩ : ∃ m, N = m + 1 := ⟨N - 1, by omega⟩
  rw [doAcquire_iterate_init cfg m]
  constructor
  · intro k hk
    rw [doRelease_iterate_open k _ 0 rfl (by simp; omega)]
    exact ⟨rfl, rfl, by simp⟩
  · rw [Function.iterate_succ_apply', doRelease_iterate_open m _ 0 rfl (by simp)]
    rw [doRelease_open_zero _ 0 rfl (by simp)]
    exact ⟨rfl, rfl⟩

/-- Witness for C4 at N = 2: the session survives the first release and is
closed by the second. -/
theorem nth_release_closes_exactly_witness :
    (doRelease^[1] (doAcquire^[2] (SessionManager.init cfg0))).sessions_closed = 0 ∧
    (doRelease^[2] (doAcquire^[2] (SessionManager.init cfg0))).sessions_closed = 1 :=
  ⟨((nth_release_closes_exactly cfg0 2 (by decide)).1 1 (by decide)).2.1,
   (nth_release_closes_exactly cfg0 2 (by decide)).2.2⟩

/-- Claim C5: calling release any positive number of times on a CLOSED scope
raises no error, leaves the scope CLOSED with depth unchanged, never creates
nor closes a session, and each call only logs a warning. -/
theorem release_on_closed_scope_noop (s : SessionManager) (h : s.async_session = none)
    (n : Nat) (_hn : 1 ≤ n) :
    (doRelease^[n] s).async_session = none ∧
    (doRelease^[n] s).recursion_depth = s.recursion_depth ∧
    (doRelease^[n] s).sessions_created = s.sessions_created ∧
    (doRelease^[n] s).sessions_closed = s.sessions_closed ∧
    (doRelease^[n] s).warning_count = s.warning_count + n := by
  rw [doRelease_iterate_closed n s h]
  exact ⟨h, rfl, rfl, rfl, rfl⟩

/-- Witness for C5: three releases on a freshly constructed scope. -/
theorem release_on_closed_scope_noop_witness :
    (doRelease^[3] (SessionManager.init cfg0)).async_session = none ∧
    (doRelease^[3] (SessionManager.init cfg0)).recursion_depth =
      (SessionManager.init cfg0).recursion_depth ∧
    (doRelease^[3] (SessionManager.init cfg0)).sessions_created =
      (SessionManager.init cfg0).sessions_created ∧
    (doRelease^[3] (SessionManager.init cfg0)).sessions_closed =
      (SessionManager.init cfg0).sessions_closed ∧
    (doRelease^[3] (SessionManager.init cfg0)).warning_count =
      (SessionManager.init cfg0).warning_count + 3 :=
  release_on_closed_scope_noop (SessionManager.init cfg0) rfl 3 (by decide)

theorem on_connect_eq (cfg : DBConfig) (executed : List String) :
    on_connect cfg executed =
      if "sqlite".toList.isPrefixOf cfg.url.toList then
        executed ++ ["pragma foreign_keys=on"]
      else executed := rfl

/-- Claim C6: on a new physical connection the connect hook executes
`pragma foreign_keys=on` if and only if the configured URL begins with
`sqlite`; for every other backend URL the hook executes no pragma. -/
theorem on_connect_pragma_iff_sqlite (cfg : DBConfig) (executed : List String) :
    (on_connect cfg executed = executed ++ ["pragma foreign_keys=on"] ↔
       "sqlite".toList.isPrefixOf cfg.url.toList = true) ∧
    (on_connect cfg executed = executed ↔
       ¬ "sqlite".toList.isPrefixOf cfg.url.toList = true) := by
  rw [on_connect_eq]
  by_cases h : "sqlite".toList.isPrefixOf cfg.url.toList = true
  · rw [if_pos h]
    refine ⟨⟨fun _ => h, fun _ => rfl⟩, ⟨fun he => ?_, fun hn => absurd h hn⟩⟩
    have hl := congrArg List.length he
    simp at hl
  · rw [if_neg h]
    refine ⟨⟨fun he => ?_, fun hh => absurd hh h⟩, ⟨fun _ => h, fun _ => rfl⟩⟩
    have hl := congrArg List.length he
    simp at hl

/-- Witness for C6: the sqlite URL of `cfg0` gets the pragma. -/
theorem on_connect_pragma_iff_sqlite_witness :
    on_connect cfg0 [] = [] ++ ["pragma foreign_keys=on"] :=
  (on_connect_pragma_iff_sqlite cfg0 []).1.mpr (by decide)

/-- Claim C7: configuring with a malformed connection URL or an unsupported
backend fails with a `ConfigurationError` at construction time, and no
session is ever created for that scope (no manager state exists at all). -/
theorem configure_invalid_url_fails (cfg : DBConfig) (e : ConfigurationError)
    (h : validate_url cfg.url = Except.error e) :
    SessionManager.initE cfg = Except.error e ∧
    ∀ s : SessionManager, SessionManager.initE cfg ≠ Except.ok s := by
  refine ⟨by simp [SessionManager.initE, h], fun s hs => ?_⟩
  rw [SessionManager.initE, h] at hs
  exact Except.noConfusion hs

/-- Witness for C7 on a URL with no scheme separator. -/
theorem configure_invalid_url_fails_witness :
    SessionManager.initE { url := "banana", debug_sql := false } =
      Except.error ConfigurationError.malformedUrl :=
  (configure_invalid_url_fails { url := "banana", debug_sql := false }
    ConfigurationError.malformedUrl rfl).1

/-- Claim C8: if the session factory fails during acquire on a CLOSED scope,
the error propagates unchanged to the caller and the scope keeps its prior
state: depth not incremented, active session still null, no orphaned
session reference, nothing created. -/
theorem acquire_factory_failure_propagates (s : SessionManager) (e : String)
    (h : s.async_session = none) :
    SessionManager.async_start_f (some e) s = (Except.error e, s) := by
  simp [SessionManager.async_start_f, h]

/-- Witness for C8 on a freshly constructed scope. -/
theorem acquire_factory_failure_propagates_witness :
    SessionManager.async_start_f (some "ConnectionError") (SessionManager.init cfg0) =
      (Except.error "ConnectionError", SessionManager.init cfg0) :=
  acquire_factory_failure_propagates (SessionManager.init cfg0) "ConnectionError" rfl

theorem async_close_close_calls (s : SessionManager) :
    s.async_close.close_calls = s.close_calls + 1 := by
  obtain ⟨cc, cas, crd, csc, cscl, ccc, cwc⟩ := s
  cases cas with
  | none => rfl
  | some v =>
      by_cases hd : 0 < crd <;> simp [SessionManager.async_close, hd]

/-- Claim C9: the scoped-acquisition pattern pairs acquire with release on
every exit path: entering the scope returns exactly the result of acquire,
and exiting invokes release exactly once on the post-body state whether the
body finished normally or raised an error. -/
theorem with_scope_pairs_acquire_release {α : Type}
    (body : Nat → SessionManager → Except String α × SessionManager) (s : SessionManager) :
    (withScope body s).1 = (body s.async_start.1 s.async_start.2).1 ∧
    (withScope body s).2 = (body s.async_start.1 s.async_start.2).2.async_close ∧
    (withScope body s).2.close_calls =
      (body s.async_start.1 s.async_start.2).2.close_calls + 1 := by
  refine ⟨rfl, rfl, ?_⟩
  exact async_close_close_calls _

/-- Claim C10: disjoint frame effects of the two operations: acquire never
closes, clears or replaces an already-active session and never decrements
the depth; release never creates a session and never increments the depth;
and neither operation modifies the stored configuration. -/
theorem operations_have_frame_effects (s : SessionManager) :
    s.async_start.2.sessions_closed = s.sessions_closed ∧
    s.recursion_depth ≤ s.async_start.2.recursion_depth ∧
    (∀ v, s.async_session = some v → s.async_start.2.async_session = some v) ∧
    s.async_close.sessions_created = s.sessions_created ∧
    s.async_close.recursion_depth ≤ s.recursion_depth ∧
    s.async_start.2.config = s.config ∧
    s.async_close.config = s.config := by
  obtain ⟨cc, cas, crd, csc, cscl, ccc, cwc⟩ := s
  cases cas with
  | none =>
      refine ⟨rfl, ?_, ?_, rfl, ?_, rfl, rfl⟩
      · simp [SessionManager.async_start]
      · intro v hv
        simp at hv
      · simp [SessionManager.async_close]
  | some v =>
      refine ⟨rfl, ?_, ?_, ?_, ?_, rfl, ?_⟩
      · simp [SessionManager.async_start]
      · intro w hw
        simp [SessionManager.async_start] at hw ⊢
        exact hw
      · by_cases hd : 0 < crd <;> simp [SessionManager.async_close, hd]
      · by_cases hd : 0 < crd <;> simp [SessionManager.async_close, hd]
      · by_cases hd : 0 < crd <;> simp [SessionManager.async_close, hd]

/-- Witness for C10: acquire on an open scope keeps the same session. -/
theorem operations_have_frame_effects_witness :
    ({ SessionManager.init cfg0 with async_session := some 7 } :
        SessionManager).async_start.2.async_session = some 7 :=
  (operations_have_frame_effects
    { SessionManager.init cfg0 with async_session := some 7 }).2.2.1 7 rfl

end HarmonyPilot
